import Mathlib

/-!
Verification of the host-driver example `ping.cpp` from the c-abi-libp2p
repository: a C++ program that dynamically loads a libp2p shared library,
resolves five C-ABI entry points into a table, checks the table for
completeness, and releases the library.

The embedding models the platform loader as an oracle environment: `LOAD_LIB`
is a partial map from library names to handles, and `GET_PROC` a partial map
from (handle, symbol name) to function addresses, with `none` standing for a
null pointer.  The driver `mainRun` is a pure function from the environment to
its exit code and the ordered trace of boundary events it performs (library
load, symbol resolutions, error prints, calls through resolved pointers,
library release).
-/

namespace Ping

/-- A function address as returned by `GET_PROC`; `none` models a null
pointer (`dlsym`/`GetProcAddress` returning `NULL`). -/
abbrev FuncPtr := Option Nat

/-- The status constant `CABI_STATUS_SUCCESS = 0` from ping.cpp. -/
def CABI_STATUS_SUCCESS : Int := 0

/-- The status constant `CABI_STATUS_NULL_POINTER = 1` from ping.cpp. -/
def CABI_STATUS_NULL_POINTER : Int := 1

/-- The status constant `CABI_STATUS_INVALID_ARGUMENT = 2` from ping.cpp. -/
def CABI_STATUS_INVALID_ARGUMENT : Int := 2

/-- The status constant `CABI_STATUS_INTERNAL_ERROR = 3` from ping.cpp. -/
def CABI_STATUS_INTERNAL_ERROR : Int := 3

/-- The complete vocabulary of status constants defined at the boundary in
ping.cpp, in declaration order. -/
def statusCodes : List Int :=
  [CABI_STATUS_SUCCESS, CABI_STATUS_NULL_POINTER,
   CABI_STATUS_INVALID_ARGUMENT, CABI_STATUS_INTERNAL_ERROR]

/-- The struct `CabiRustLibp2p` of ping.cpp: five typed function-pointer
fields, value-initialized to null (`none`) by the `{}` member initializers. -/
structure CabiRustLibp2p where
  InitTracing : FuncPtr := none
  NewNode : FuncPtr := none
  ListenNode : FuncPtr := none
  DialNode : FuncPtr := none
  FreeNode : FuncPtr := none
deriving DecidableEq

/-- Boundary events the driver can perform, in the order they appear in the
trace.  `callFn` records an invocation through a resolved ABI function
pointer; ping.cpp's driver never emits one. -/
inductive Event where
  | loadLib (name : String)
  | getProc (name : String)
  | printErr (msg : String)
  | callFn (name : String)
  | closeLib
deriving DecidableEq

/-- `loadAbi` from ping.cpp: unconditionally assigns each of the five fields
from `GET_PROC` on its fixed symbol name, then returns the conjunction of the
five null-checks. -/
def loadAbi (getProc : String → FuncPtr) (abi : CabiRustLibp2p) :
    Bool × CabiRustLibp2p :=
  let abi := { abi with InitTracing := getProc "cabi_init_tracing" }
  let abi := { abi with NewNode := getProc "cabi_node_new" }
  let abi := { abi with ListenNode := getProc "cabi_node_listen" }
  let abi := { abi with DialNode := getProc "cabi_node_dial" }
  let abi := { abi with FreeNode := getProc "cabi_node_free" }
  (abi.InitTracing.isSome && abi.NewNode.isSome &&
     abi.ListenNode.isSome && abi.DialNode.isSome && abi.FreeNode.isSome,
   abi)

/-- The five `GET_PROC` boundary events `loadAbi` performs, in source order. -/
def loadAbiEvents : List Event :=
  [Event.getProc "cabi_init_tracing", Event.getProc "cabi_node_new",
   Event.getProc "cabi_node_listen", Event.getProc "cabi_node_dial",
   Event.getProc "cabi_node_free"]

/-- The platform environment: what `LOAD_LIB` returns for a library name
(`none` = load failure), and what `GET_PROC` returns on a handle and a symbol
name (`none` = missing symbol). -/
structure Env where
  loadLib : String → Option Nat
  getProc : Nat → String → FuncPtr

/-- The fixed library file name `LIB_NAME` (non-Windows branch). -/
def LIB_NAME : String := "cabi_rust_libp2p.so"

/-- The message main prints when `LOAD_LIB` fails. -/
def loadErrorMsg : String := "Error on loading Lib:" ++ LIB_NAME ++ "\n"

/-- The message main prints inside the `if (loadAbi(lib, abi))` branch. -/
def missingFunctionsMsg : String := "Missing required functions in library \n"

/-- Exit code together with the ordered trace of boundary events of one run
of the driver. -/
structure RunResult where
  exitCode : Nat
  trace : List Event
deriving DecidableEq

/-- `main` from ping.cpp: load the library (on null handle print the error
and return 1); otherwise run `loadAbi` on a default-initialized table, print
the missing-functions message when `loadAbi` returned `true`, then close the
library and return 0.  No resolved function is ever invoked. -/
def mainRun (env : Env) : RunResult :=
  match env.loadLib LIB_NAME with
  | none =>
      { exitCode := 1
        trace := [Event.loadLib LIB_NAME, Event.printErr loadErrorMsg] }
  | some lib =>
      let r := loadAbi (env.getProc lib) {}
      let errEvents :=
        if r.1 then [Event.printErr missingFunctionsMsg] else []
      { exitCode := 0
        trace := [Event.loadLib LIB_NAME] ++ loadAbiEvents ++ errEvents ++
          [Event.closeLib] }

/-- Recognizes symbol-resolution events. -/
def isGetProcEvent : Event → Bool
  | Event.getProc _ => true
  | _ => false

/-- Recognizes error-print events. -/
def isPrintErrEvent : Event → Bool
  | Event.printErr _ => true
  | _ => false

/-- Recognizes invocations through resolved ABI function pointers. -/
def isCallFnEvent : Event → Bool
  | Event.callFn _ => true
  | _ => false

/-- Recognizes library-release events. -/
def isCloseLibEvent : Event → Bool
  | Event.closeLib => true
  | _ => false

/-- An environment in which the library loads and all five symbols
resolve. -/
def envAllResolve : Env :=
  { loadLib := fun _ => some 1, getProc := fun _ _ => some 1 }

/-- An environment in which the library loads but `cabi_node_free` is
missing, so the ABI table is invalid. -/
def envMissingFree : Env :=
  { loadLib := fun _ => some 1
    getProc := fun _ n => if n = "cabi_node_free" then none else some 1 }

/-- An environment in which `LOAD_LIB` fails (null library handle). -/
def envLoadFails : Env :=
  { loadLib := fun _ => none, getProc := fun _ _ => some 1 }

end Ping

namespace Ping

/-- Claim C2: `loadAbi` assigns each of the five fixed symbol names to its
corresponding typed field, and returns `true` (table valid) if and only if
all five resolutions are non-null; any single null resolution makes it
return `false`. -/
theorem loadAbi_valid_iff_all_resolved (g : String → FuncPtr)
    (abi : CabiRustLibp2p) :
    ((loadAbi g abi).2.InitTracing = g "cabi_init_tracing" ∧
     (loadAbi g abi).2.NewNode = g "cabi_node_new" ∧
     (loadAbi g abi).2.ListenNode = g "cabi_node_listen" ∧
     (loadAbi g abi).2.DialNode = g "cabi_node_dial" ∧
     (loadAbi g abi).2.FreeNode = g "cabi_node_free") ∧
    ((loadAbi g abi).1 = true ↔
      ((g "cabi_init_tracing").isSome = true ∧
       (g "cabi_node_new").isSome = true ∧
       (g "cabi_node_listen").isSome = true ∧
       (g "cabi_node_dial").isSome = true ∧
       (g "cabi_node_free").isSome = true)) := by
  refine ⟨⟨rfl, rfl, rfl, rfl, rfl⟩, ?_⟩
  simp [loadAbi, Bool.and_eq_true, and_assoc]

/-- Claim C9: after `loadAbi` returns, every field of the table equals the
resolution of its symbol name, whatever the previous contents of the table
and whatever the boolean result: the fields are unconditionally overwritten,
and invalidity lives only in the returned boolean. -/
theorem loadAbi_overwrites_all_fields (g : String → FuncPtr)
    (abi : CabiRustLibp2p) :
    (loadAbi g abi).2 =
      { InitTracing := g "cabi_init_tracing"
        NewNode := g "cabi_node_new"
        ListenNode := g "cabi_node_listen"
        DialNode := g "cabi_node_dial"
        FreeNode := g "cabi_node_free" } := rfl

/-- Claim C1 (code bug): the polarity of the validity check in `main` is
inverted.  When every symbol resolves (`loadAbi` returns `true`, table
valid), main prints the missing-functions message; when a symbol is missing
(`loadAbi` returns `false`), main prints nothing. -/
theorem main_missing_message_polarity_inverted :
    (loadAbi (envAllResolve.getProc 1) {}).1 = true ∧
    Event.printErr missingFunctionsMsg ∈ (mainRun envAllResolve).trace ∧
    (loadAbi (envMissingFree.getProc 1) {}).1 = false ∧
    Event.printErr missingFunctionsMsg ∉ (mainRun envMissingFree).trace := by
  decide

/-- Claim C3 (counterexample): in a run where the library loads but
`cabi_node_free` is missing (table invalid), the driver prints no error at
all and exits with code 0, contradicting the claimed single error message
and non-zero exit code. -/
theorem main_invalid_abi_silent_and_zero :
    (loadAbi (envMissingFree.getProc 1) {}).1 = false ∧
    (mainRun envMissingFree).trace.countP isPrintErrEvent = 0 ∧
    (mainRun envMissingFree).exitCode = 0 := by decide

/-- Claim C3 (amended): when the library loads but the ABI table is invalid,
the driver invokes no resolved function and releases the library exactly
once, but surfaces no error message (the inverted check prints only on a
valid table) and exits with code 0, not non-zero. -/
theorem main_invalid_abi_teardown (env : Env) (lib : Nat)
    (hload : env.loadLib LIB_NAME = some lib)
    (hinv : (loadAbi (env.getProc lib) {}).1 = false) :
    (mainRun env).trace.countP isCallFnEvent = 0 ∧
    (mainRun env).trace.countP isPrintErrEvent = 0 ∧
    (mainRun env).trace.countP isCloseLibEvent = 1 ∧
    (mainRun env).exitCode = 0 := by
  simp [mainRun, hload, hinv, loadAbiEvents, List.countP_append,
    List.countP_cons, isCallFnEvent, isPrintErrEvent, isCloseLibEvent]

/-- Witness for the amended claim C3 at the concrete environment where
`cabi_node_free` is missing. -/
theorem main_invalid_abi_teardown_witness :
    (mainRun envMissingFree).trace.countP isCallFnEvent = 0 ∧
    (mainRun envMissingFree).trace.countP isPrintErrEvent = 0 ∧
    (mainRun envMissingFree).trace.countP isCloseLibEvent = 1 ∧
    (mainRun envMissingFree).exitCode = 0 :=
  main_invalid_abi_teardown envMissingFree 1 rfl (by decide)

/-- Claim C4: when `LOAD_LIB` returns a null handle, the driver prints
exactly one error message (the load-error message), attempts no symbol
resolution, performs no call through a resolved pointer, does not release
any library, and exits with the non-zero code 1. -/
theorem main_load_failure (env : Env) (h : env.loadLib LIB_NAME = none) :
    (mainRun env).exitCode = 1 ∧
    Event.printErr loadErrorMsg ∈ (mainRun env).trace ∧
    (mainRun env).trace.countP isPrintErrEvent = 1 ∧
    (mainRun env).trace.countP isGetProcEvent = 0 ∧
    (mainRun env).trace.countP isCallFnEvent = 0 ∧
    (mainRun env).trace.countP isCloseLibEvent = 0 := by
  simp [mainRun, h, List.countP_cons, isPrintErrEvent, isGetProcEvent,
    isCallFnEvent, isCloseLibEvent]

/-- Witness for claim C4 at the concrete environment where loading fails. -/
theorem main_load_failure_witness :
    (mainRun envLoadFails).exitCode = 1 ∧
    Event.printErr loadErrorMsg ∈ (mainRun envLoadFails).trace ∧
    (mainRun envLoadFails).trace.countP isPrintErrEvent = 1 ∧
    (mainRun envLoadFails).trace.countP isGetProcEvent = 0 ∧
    (mainRun envLoadFails).trace.countP isCallFnEvent = 0 ∧
    (mainRun envLoadFails).trace.countP isCloseLibEvent = 0 :=
  main_load_failure envLoadFails rfl

/-- Claim C5 (counterexample): in a run where the library loads and all
five symbols resolve (the success path), the trace contains no call through
any resolved pointer: the tracing-initialization, node-creation, listen,
dial and node-destruction steps claimed present are absent. -/
theorem main_success_path_no_node_lifecycle :
    (loadAbi (envAllResolve.getProc 1) {}).1 = true ∧
    (mainRun envAllResolve).trace.countP isCallFnEvent = 0 := by decide

/-- Claim C5 (amended): whenever the library loads, the driver performs
exactly: the library load, then the five symbol resolutions in their fixed
order, then the validity report (printed exactly when the table is valid,
because of the inverted check), then the library release — and nothing
else; no tracing-initialization, node, listen or dial step exists. -/
theorem main_success_path_order (env : Env) (lib : Nat)
    (hload : env.loadLib LIB_NAME = some lib) :
    (mainRun env).trace =
      [Event.loadLib LIB_NAME] ++ loadAbiEvents ++
        (if (loadAbi (env.getProc lib) {}).1 then
          [Event.printErr missingFunctionsMsg] else []) ++
        [Event.closeLib] ∧
    (mainRun env).trace.countP isCallFnEvent = 0 := by
  refine ⟨by simp [mainRun, hload], ?_⟩
  rcases hb : (loadAbi (env.getProc lib) {}).1 <;>
    simp [mainRun, hload, hb, loadAbiEvents, List.countP_append,
      List.countP_cons, isCallFnEvent]

/-- Witness for the amended claim C5 at the all-symbols-resolve
environment. -/
theorem main_success_path_order_witness :
    (mainRun envAllResolve).trace =
      [Event.loadLib LIB_NAME] ++ loadAbiEvents ++
        (if (loadAbi (envAllResolve.getProc 1) {}).1 then
          [Event.printErr missingFunctionsMsg] else []) ++
        [Event.closeLib] ∧
    (mainRun envAllResolve).trace.countP isCallFnEvent = 0 :=
  main_success_path_order envAllResolve 1 rfl

/-- Claim C6: whenever `LOAD_LIB` succeeds, the driver reaches the end of
`main` and exits with code 0, whatever the outcome of symbol resolution. -/
theorem main_exit_zero_after_load (env : Env) (lib : Nat)
    (hload : env.loadLib LIB_NAME = some lib) :
    (mainRun env).exitCode = 0 := by
  simp [mainRun, hload]

/-- Witness for claim C6 at the environment where `cabi_node_free` is
missing: even though resolution is incomplete, the exit code is 0. -/
theorem main_exit_zero_after_load_witness :
    (mainRun envMissingFree).exitCode = 0 :=
  main_exit_zero_after_load envMissingFree 1 rfl

/-- Claim C7: on every path, the library-release call appears in the trace
exactly once when acquisition succeeded (including the invalid-table path)
and not at all when acquisition failed. -/
theorem main_close_iff_loaded (env : Env) :
    (mainRun env).trace.countP isCloseLibEvent =
      if (env.loadLib LIB_NAME).isSome then 1 else 0 := by
  rcases h : env.loadLib LIB_NAME with _ | lib
  · simp [mainRun, h, List.countP_cons, isCloseLibEvent]
  · rcases hb : (loadAbi (env.getProc lib) {}).1 <;>
      simp [mainRun, h, hb, loadAbiEvents, List.countP_append,
        List.countP_cons, isCloseLibEvent]

/-- Claim C8: the boundary status vocabulary is the closed list of exactly
four constants SUCCESS, NULL_POINTER, INVALID_ARGUMENT, INTERNAL_ERROR, and
they are pairwise distinct integers. -/
theorem statusCodes_closed_and_distinct :
    statusCodes =
      [CABI_STATUS_SUCCESS, CABI_STATUS_NULL_POINTER,
       CABI_STATUS_INVALID_ARGUMENT, CABI_STATUS_INTERNAL_ERROR] ∧
    statusCodes.length = 4 ∧ statusCodes.Nodup ∧
    CABI_STATUS_SUCCESS ≠ CABI_STATUS_NULL_POINTER ∧
    CABI_STATUS_SUCCESS ≠ CABI_STATUS_INVALID_ARGUMENT ∧
    CABI_STATUS_SUCCESS ≠ CABI_STATUS_INTERNAL_ERROR ∧
    CABI_STATUS_NULL_POINTER ≠ CABI_STATUS_INVALID_ARGUMENT ∧
    CABI_STATUS_NULL_POINTER ≠ CABI_STATUS_INTERNAL_ERROR ∧
    CABI_STATUS_INVALID_ARGUMENT ≠ CABI_STATUS_INTERNAL_ERROR := by decide

/-- Claim C10: on every execution path of the driver, no call through a
resolved ABI function pointer ever occurs, before or after the library
release, even when the table is fully valid. -/
theorem main_never_calls_resolved (env : Env) :
    (mainRun env).trace.countP isCallFnEvent = 0 := by
  rcases h : env.loadLib LIB_NAME with _ | lib
  · simp [mainRun, h, List.countP_cons, isCallFnEvent]
  · rcases hb : (loadAbi (env.getProc lib) {}).1 <;>
      simp [mainRun, h, hb, loadAbiEvents, List.countP_append,
        List.countP_cons, isCallFnEvent]

end Ping
